import Mathlib

/-!
Verification of the MVCC GC compaction filter of
`src/server/gc_worker/compaction_filter.rs` (TiKV fragment).

The filter and its helpers are embedded shallowly: bytes are `List Nat`,
the mutable `WriteCompactionFilter` struct becomes an explicit state record,
RocksDB write batches become lists of pending column-family deletes, and a
Rust `unwrap()` on a fallible operation becomes an `Option`/`Except` failure
(`none` / `.error` models a panic).  The MVCC key and value codecs live in
the `txn_types` crate, which is outside the provided sources, so they are
modelled from the spec (section 3 of spec.md) and marked as such.
-/

namespace GcCompactionFilter

/-- Column families touched by the filter: `CF_WRITE` and the default CF. -/
inductive CF where
  | default : CF
  | write : CF
deriving DecidableEq, Repr

/-- MVCC write record types, from `txn_types::WriteType`. -/
inductive WriteType where
  | Put : WriteType
  | Delete : WriteType
  | Lock : WriteType
  | Rollback : WriteType
deriving DecidableEq, Repr

/-- Parsed view of a write-column value, from `txn_types::WriteRef`. -/
structure WriteRef where
  write_type : WriteType
  start_ts : Nat
  short_value : Option (List Nat)
deriving DecidableEq, Repr

/-- Maximal `u64` value, used by the timestamp encoding. -/
def u64max : Nat := 18446744073709551615

/-- Big-endian bytes of a `u64`. -/
def beBytes (n : Nat) : List Nat :=
  [n / 2 ^ 56 % 256, n / 2 ^ 48 % 256, n / 2 ^ 40 % 256, n / 2 ^ 32 % 256,
   n / 2 ^ 24 % 256, n / 2 ^ 16 % 256, n / 2 ^ 8 % 256, n % 256]

/-- Value of a big-endian byte string. -/
def beVal (bs : List Nat) : Nat :=
  bs.foldl (fun a b => a * 256 + b) 0

/-- Modelled from the spec: `txn_types::Key::append_ts` (the `txn_types`
crate is not among the sources).  An encoded MVCC key is
`user_bytes ++ big-endian(!commit_ts)`, so that lexicographic order is
descending commit-ts within one user key (spec section 3). -/
def append_ts (pfx : List Nat) (ts : Nat) : List Nat :=
  pfx ++ beBytes (u64max - ts)

/-- Modelled from the spec: `txn_types::Key::split_on_ts_for`.  Splits an
encoded key into the user key and the commit timestamp; keys shorter than
the eight timestamp bytes are invalid (spec section 4.1). -/
def split_on_ts (k : List Nat) : Option (List Nat × Nat) :=
  if 8 ≤ k.length then
    some (k.take (k.length - 8), u64max - beVal (k.drop (k.length - 8)))
  else
    none

/-- Modelled from the spec: `txn_types::WriteRef::parse`.  The spec gives
the fields (`write_type`, `start_ts`, optional `short_value`) but not the
byte layout, so a minimal injective layout is used: one tag byte
(0 = Put, 1 = Delete, 2 = Lock, 3 = Rollback), eight big-endian `start_ts`
bytes, then either nothing (no short value) or a marker byte followed by
the inline bytes.  Anything else is a parse error. -/
def parseWriteRef (v : List Nat) : Option WriteRef :=
  match v with
  | tag :: rest =>
    if rest.length < 8 then none
    else
      let wt : Option WriteType :=
        if tag = 0 then some WriteType.Put
        else if tag = 1 then some WriteType.Delete
        else if tag = 2 then some WriteType.Lock
        else if tag = 3 then some WriteType.Rollback
        else none
      match wt with
      | none => none
      | some wt =>
        let ts := beVal (rest.take 8)
        match rest.drop 8 with
        | [] => some ⟨wt, ts, none⟩
        | _ :: sv => some ⟨wt, ts, some sv⟩
  | [] => none

/-- Inverse of `parseWriteRef`, used to build concrete test values. -/
def encodeWriteRef (w : WriteRef) : List Nat :=
  let tag :=
    match w.write_type with
    | WriteType.Put => 0
    | WriteType.Delete => 1
    | WriteType.Lock => 2
    | WriteType.Rollback => 3
  match w.short_value with
  | none => tag :: beBytes w.start_ts
  | some sv => tag :: (beBytes w.start_ts ++ 255 :: sv)

/-- `DEFAULT_DELETE_BATCH_COUNT` from the source (line 20). -/
def DEFAULT_DELETE_BATCH_COUNT : Nat := 128

/-- One pending delete in the write batch: target column family and key. -/
abbrev DeleteEntry := CF × List Nat

/-- Shallow state of `WriteCompactionFilter` (source lines 87-105), plus an
explicit model of the engine-visible effects: `write_batch` is the pending
RocksDB write batch and `db_writes` records every batch already written to
the engine together with its `sync` flag. -/
structure FilterState where
  bottommost_level : Bool
  safe_point : Nat
  write_batch : List DeleteEntry
  db_writes : List (List DeleteEntry × Bool)
  key_pfx : List Nat
  remove_older : Bool
  leveled_tail_deletes : List (Nat × List Nat)
  versions : Nat
  deleted : Nat
  total_versions : Nat
  total_deleted : Nat
deriving DecidableEq, Repr

/-- `WriteCompactionFilter::new` (source lines 107-128). -/
def mkFilter (bottommost : Bool) (sp : Nat) : FilterState :=
  ⟨bottommost, sp, [], [], [], false, [], 0, 0, 0, 0⟩

/-- Remove a level entry from `leveled_tail_deletes`
(`HashMap::remove`, source line 237). -/
def ltdRemove (m : List (Nat × List Nat)) (level : Nat) : List (Nat × List Nat) :=
  m.filter (fun e => e.1 ≠ level)

/-- Insert or replace a level entry in `leveled_tail_deletes`
(`HashMap::insert`, source line 260). -/
def ltdInsert (m : List (Nat × List Nat)) (level : Nat) (k : List Nat) :
    List (Nat × List Nat) :=
  (level, k) :: ltdRemove m level

/-- `flush_pending_writes_if_need` (source lines 140-148): when the batch
holds more than `DEFAULT_DELETE_BATCH_COUNT` entries it is written to the
engine with `sync = false` and cleared. -/
def flush_pending_writes_if_need (st : FilterState) : FilterState :=
  if DEFAULT_DELETE_BATCH_COUNT < st.write_batch.length then
    { st with
      db_writes := st.db_writes ++ [(st.write_batch, false)]
      write_batch := [] }
  else st

/-- `delete_default_key` (source lines 130-133). -/
def delete_default_key (st : FilterState) (k : List Nat) : FilterState :=
  flush_pending_writes_if_need
    { st with write_batch := st.write_batch ++ [(CF.default, k)] }

/-- `delete_write_key` (source lines 135-138). -/
def delete_write_key (st : FilterState) (k : List Nat) : FilterState :=
  flush_pending_writes_if_need
    { st with write_batch := st.write_batch ++ [(CF.write, k)] }

/-- `switch_key_metrics` (source lines 150-161): fold the per-prefix
counters into the compaction-wide totals and reset them. -/
def switch_key_metrics (st : FilterState) : FilterState :=
  let st1 :=
    if st.versions ≠ 0 then
      { st with total_versions := st.total_versions + st.versions, versions := 0 }
    else st
  if st1.deleted ≠ 0 then
    { st1 with total_deleted := st1.total_deleted + st1.deleted, deleted := 0 }
  else st1

/-- The prefix-change block of `filter` (source lines 230-238): on a new
user prefix, fold the metrics, remember the prefix, reset `remove_older`,
and drop the tail-delete record of this level. -/
def switch_if_new_pfx (st : FilterState) (level : Nat) (pfx : List Nat) :
    FilterState :=
  if st.key_pfx = pfx then st
  else
    { switch_key_metrics st with
      key_pfx := pfx
      remove_older := false
      leveled_tail_deletes := ltdRemove st.leveled_tail_deletes level }

/-- The prefix-change block followed by the `versions` bump of `filter`
(source lines 230-240). -/
def stepped (st : FilterState) (level : Nat) (pfx : List Nat) : FilterState :=
  let st1 := switch_if_new_pfx st level pfx
  { st1 with versions := st1.versions + 1 }

/-- The write-type decision block of `filter` (source lines 245-265): the
initial `filtered` is `remove_older`, and while `remove_older` is still
false a Lock/Rollback is dropped without flipping it, a Put flips it, and
a Delete flips it and is itself dropped (with a tail-delete record) only
at the bottommost level. -/
def decide_drop (st : FilterState) (level : Nat) (key : List Nat)
    (wt : WriteType) : Bool × FilterState :=
  if st.remove_older then (true, st)
  else
    match wt with
    | WriteType.Rollback => (true, st)
    | WriteType.Lock => (true, st)
    | WriteType.Delete =>
      if st.bottommost_level then
        (true, { st with
          remove_older := true
          leveled_tail_deletes := ltdInsert st.leveled_tail_deletes level key })
      else
        (false, { st with remove_older := true })
    | WriteType.Put => (false, { st with remove_older := true })

/-- The side-effect block of `filter` (source lines 267-273): a dropped
record without a short value enqueues one companion default-CF delete at
`user_prefix ++ start_ts`, and the `deleted` counter is bumped. -/
def apply_drop (st : FilterState) (pfx : List Nat) (w : WriteRef)
    (filtered : Bool) : FilterState :=
  if filtered then
    let st1 :=
      if w.short_value = none then
        delete_default_key st (append_ts pfx w.start_ts)
      else st
    { st1 with deleted := st1.deleted + 1 }
  else st

/-- `WriteCompactionFilter::filter` (source lines 215-276).  Returns
`some (drop?, new_state)`; `none` models the panic of the
`WriteRef::parse(value).unwrap()` at source line 250. -/
def filter (st : FilterState) (level : Nat) (key value : List Nat) :
    Option (Bool × FilterState) :=
  match split_on_ts key with
  | none => some (false, st)
  | some (pfx, commit_ts) =>
    let st2 := stepped st level pfx
    if st2.safe_point < commit_ts then some (false, st2)
    else
      match parseWriteRef value with
      | none => none
      | some w =>
        let fs := decide_drop st2 level key w.write_type
        some (fs.1, apply_drop fs.2 pfx w fs.1)

/-- The raw callback signature also carries `new_value` and
`value_changed` out-parameters, which the source ignores (the `_`
parameters at source lines 220-221); they are threaded through
unchanged. -/
def filter_full (st : FilterState) (level : Nat) (key value : List Nat)
    (new_value : List Nat) (value_changed : Bool) :
    Option (Bool × FilterState × List Nat × Bool) :=
  (filter st level key value).map (fun p => (p.1, p.2, new_value, value_changed))

/-- Every companion delete ever enqueued by the Write Batcher, in order:
the flushed batches followed by the still-pending batch. -/
def enqueued (st : FilterState) : List DeleteEntry :=
  (st.db_writes.map Prod.fst).flatten ++ st.write_batch

/-- The GC configuration fields read by the admission gate
(`GcConfig`, defined outside this file; the two fields are used at source
lines 280-281). -/
structure GcConfig where
  enable_compaction_filter : Bool
  compaction_filter_skip_version_check : Bool
deriving DecidableEq, Repr

/-- Modelled from the spec: a semantic version as used by the `semver`
crate comparison at source lines 282-285 (major, minor, patch; the
pre-release component plays no role for the constant `5.0.0`). -/
structure Version where
  major : Nat
  minor : Nat
  patch : Nat
deriving DecidableEq, Repr

/-- Modelled from the spec: lexicographic `>=` on semantic versions. -/
def versionGe (a b : Version) : Bool :=
  if a.major = b.major then
    if a.minor = b.minor then decide (b.patch ≤ a.patch)
    else decide (b.minor < a.minor)
  else decide (b.major < a.major)

/-- `COMPACTION_FILTER_MINIMAL_VERSION = "5.0.0"` (source line 25). -/
def COMPACTION_FILTER_MINIMAL_VERSION : Version := ⟨5, 0, 0⟩

/-- `is_compaction_filter_allowd` (source lines 279-287).  The
`ClusterVersion` handle is modelled by what its `get()` returns: `none`
when no cluster version is known (then `map_or(false, ...)` yields
false). -/
def is_compaction_filter_allowd (cfg : GcConfig) (cluster_version : Option Version) :
    Bool :=
  cfg.enable_compaction_filter &&
    (cfg.compaction_filter_skip_version_check ||
      match cluster_version with
      | none => false
      | some v => versionGe v COMPACTION_FILTER_MINIMAL_VERSION)

/-- One observation of the write-column iterator used by the tail
resolver: the iterator either stands on a valid entry, or a `seek`/`next`
call fails with an engine read error (`Result::Err`, which the source
`unwrap()`s at lines 172 and 191).  A list of observations is the stream
of positions produced by `seek(seek_key)` followed by repeated `next()`;
the end of the list is iterator exhaustion (`valid == false`). -/
inductive TailObs where
  | entry (key value : List Nat) : TailObs
  | fail : TailObs
deriving DecidableEq, Repr

/-- The per-entry while loop of `<WriteCompactionFilter as Drop>::drop`
(source lines 170-193).  `Except.error` models a panic: an engine read
error (`TailObs.fail`, unwrapped at lines 172/191) or a `WriteRef` parse
failure (unwrapped at line 181).  A key parse failure or a user-prefix
mismatch breaks out of the loop (lines 175-179). -/
def resolveTail (st : FilterState) (seek_key : List Nat) :
    List TailObs → Except Unit FilterState
  | [] => Except.ok (switch_key_metrics st)
  | TailObs.fail :: _ => Except.error ()
  | TailObs.entry key value :: rest =>
    match split_on_ts key with
    | none => Except.ok (switch_key_metrics st)
    | some (pfx, _) =>
      if pfx.isPrefixOf seek_key then
        match parseWriteRef value with
        | none => Except.error ()
        | some w =>
          let st1 :=
            if w.short_value = none then
              delete_default_key st (append_ts pfx w.start_ts)
            else st
          let st2 := delete_write_key st1 key
          let st3 := { st2 with versions := st2.versions + 1, deleted := st2.deleted + 1 }
          resolveTail st3 seek_key rest
      else Except.ok (switch_key_metrics st)

/-- The `for (_, seek_key) in std::mem::take(&mut self.leveled_tail_deletes)`
loop of the destructor (source lines 166-194): each taken entry is paired
with the observation stream its iterator produces. -/
def runTailDeletes (st : FilterState) :
    List ((Nat × List Nat) × List TailObs) → Except Unit FilterState
  | [] => Except.ok st
  | (e, obs) :: rest =>
    match resolveTail st e.2 obs with
    | Except.error u => Except.error u
    | Except.ok st1 => runTailDeletes st1 rest

/-- The final durable write of the destructor (source lines 196-203):
either the remaining batch written with `sync = true`, or a WAL sync when
the batch is empty. -/
inductive FinalWrite where
  | syncWrite (batch : List DeleteEntry) : FinalWrite
  | walSync : FinalWrite
deriving DecidableEq, Repr

/-- `<WriteCompactionFilter as Drop>::drop` (source lines 164-211): run
the tail-delete loops, then issue the final write.  `Except.error` is a
panic escaping the destructor. -/
def dropFilter (st : FilterState)
    (entries : List ((Nat × List Nat) × List TailObs)) :
    Except Unit (FilterState × FinalWrite) :=
  match runTailDeletes st entries with
  | Except.error u => Except.error u
  | Except.ok st1 =>
    if st1.write_batch = [] then Except.ok (st1, FinalWrite.walSync)
    else Except.ok (st1, FinalWrite.syncWrite st1.write_batch)

/-! Field-preservation lemmas for the state-updating helpers. -/

@[simp]
theorem switch_key_metrics_safe_point (st : FilterState) :
    (switch_key_metrics st).safe_point = st.safe_point := by
  unfold switch_key_metrics
  dsimp only
  split <;> split <;> rfl

@[simp]
theorem switch_key_metrics_write_batch (st : FilterState) :
    (switch_key_metrics st).write_batch = st.write_batch := by
  unfold switch_key_metrics
  dsimp only
  split <;> split <;> rfl

@[simp]
theorem switch_key_metrics_db_writes (st : FilterState) :
    (switch_key_metrics st).db_writes = st.db_writes := by
  unfold switch_key_metrics
  dsimp only
  split <;> split <;> rfl

@[simp]
theorem switch_key_metrics_bottommost (st : FilterState) :
    (switch_key_metrics st).bottommost_level = st.bottommost_level := by
  unfold switch_key_metrics
  dsimp only
  split <;> split <;> rfl

@[simp]
theorem switch_key_metrics_remove_older (st : FilterState) :
    (switch_key_metrics st).remove_older = st.remove_older := by
  unfold switch_key_metrics
  dsimp only
  split <;> split <;> rfl

@[simp]
theorem switch_key_metrics_key_pfx (st : FilterState) :
    (switch_key_metrics st).key_pfx = st.key_pfx := by
  unfold switch_key_metrics
  dsimp only
  split <;> split <;> rfl

@[simp]
theorem flush_safe_point (st : FilterState) :
    (flush_pending_writes_if_need st).safe_point = st.safe_point := by
  unfold flush_pending_writes_if_need
  split <;> rfl

@[simp]
theorem flush_remove_older (st : FilterState) :
    (flush_pending_writes_if_need st).remove_older = st.remove_older := by
  unfold flush_pending_writes_if_need
  split <;> rfl

@[simp]
theorem flush_key_pfx (st : FilterState) :
    (flush_pending_writes_if_need st).key_pfx = st.key_pfx := by
  unfold flush_pending_writes_if_need
  split <;> rfl

@[simp]
theorem flush_deleted (st : FilterState) :
    (flush_pending_writes_if_need st).deleted = st.deleted := by
  unfold flush_pending_writes_if_need
  split <;> rfl

@[simp]
theorem flush_versions (st : FilterState) :
    (flush_pending_writes_if_need st).versions = st.versions := by
  unfold flush_pending_writes_if_need
  split <;> rfl

@[simp]
theorem enqueued_flush (st : FilterState) :
    enqueued (flush_pending_writes_if_need st) = enqueued st := by
  unfold flush_pending_writes_if_need enqueued
  split <;> simp

@[simp]
theorem delete_default_key_remove_older (st : FilterState) (k : List Nat) :
    (delete_default_key st k).remove_older = st.remove_older := by
  unfold delete_default_key
  simp

@[simp]
theorem delete_default_key_safe_point (st : FilterState) (k : List Nat) :
    (delete_default_key st k).safe_point = st.safe_point := by
  unfold delete_default_key
  simp

@[simp]
theorem enqueued_delete_default_key (st : FilterState) (k : List Nat) :
    enqueued (delete_default_key st k) = enqueued st ++ [(CF.default, k)] := by
  unfold delete_default_key
  rw [enqueued_flush]
  unfold enqueued
  simp

@[simp]
theorem enqueued_delete_write_key (st : FilterState) (k : List Nat) :
    enqueued (delete_write_key st k) = enqueued st ++ [(CF.write, k)] := by
  unfold delete_write_key
  rw [enqueued_flush]
  unfold enqueued
  simp

@[simp]
theorem stepped_safe_point (st : FilterState) (level : Nat) (pfx : List Nat) :
    (stepped st level pfx).safe_point = st.safe_point := by
  unfold stepped switch_if_new_pfx
  dsimp only
  split <;> simp

@[simp]
theorem stepped_write_batch (st : FilterState) (level : Nat) (pfx : List Nat) :
    (stepped st level pfx).write_batch = st.write_batch := by
  unfold stepped switch_if_new_pfx
  dsimp only
  split <;> simp

@[simp]
theorem stepped_db_writes (st : FilterState) (level : Nat) (pfx : List Nat) :
    (stepped st level pfx).db_writes = st.db_writes := by
  unfold stepped switch_if_new_pfx
  dsimp only
  split <;> simp

@[simp]
theorem stepped_bottommost (st : FilterState) (level : Nat) (pfx : List Nat) :
    (stepped st level pfx).bottommost_level = st.bottommost_level := by
  unfold stepped switch_if_new_pfx
  dsimp only
  split <;> simp

@[simp]
theorem enqueued_stepped (st : FilterState) (level : Nat) (pfx : List Nat) :
    enqueued (stepped st level pfx) = enqueued st := by
  unfold enqueued
  simp

theorem stepped_remove_older (st : FilterState) (level : Nat) (pfx : List Nat) :
    (stepped st level pfx).remove_older =
      if st.key_pfx = pfx then st.remove_older else false := by
  unfold stepped switch_if_new_pfx
  dsimp only
  split <;> simp_all

/-! Characterizations of the decision and side-effect blocks. -/

theorem decide_drop_of_remove_older (st : FilterState) (level : Nat)
    (key : List Nat) (wt : WriteType) (h : st.remove_older = true) :
    decide_drop st level key wt = (true, st) := by
  unfold decide_drop
  rw [if_pos h]

theorem decide_drop_lock (st : FilterState) (level : Nat) (key : List Nat)
    (h : st.remove_older = false) :
    decide_drop st level key WriteType.Lock = (true, st) := by
  unfold decide_drop
  simp [h]

theorem decide_drop_rollback (st : FilterState) (level : Nat) (key : List Nat)
    (h : st.remove_older = false) :
    decide_drop st level key WriteType.Rollback = (true, st) := by
  unfold decide_drop
  simp [h]

theorem decide_drop_put (st : FilterState) (level : Nat) (key : List Nat)
    (h : st.remove_older = false) :
    decide_drop st level key WriteType.Put = (false, { st with remove_older := true }) := by
  unfold decide_drop
  simp [h]

theorem decide_drop_delete_nonbottom (st : FilterState) (level : Nat) (key : List Nat)
    (h : st.remove_older = false) (hb : st.bottommost_level = false) :
    decide_drop st level key WriteType.Delete =
      (false, { st with remove_older := true }) := by
  unfold decide_drop
  simp [h, hb]

theorem decide_drop_delete_bottom (st : FilterState) (level : Nat) (key : List Nat)
    (h : st.remove_older = false) (hb : st.bottommost_level = true) :
    decide_drop st level key WriteType.Delete =
      (true, { st with
        remove_older := true
        leveled_tail_deletes := ltdInsert st.leveled_tail_deletes level key }) := by
  unfold decide_drop
  simp [h, hb]

@[simp]
theorem decide_drop_snd_write_batch (st : FilterState) (level : Nat)
    (key : List Nat) (wt : WriteType) :
    (decide_drop st level key wt).2.write_batch = st.write_batch := by
  unfold decide_drop
  split
  · rfl
  · cases wt <;> first
      | rfl
      | (dsimp only; split <;> rfl)

@[simp]
theorem decide_drop_snd_db_writes (st : FilterState) (level : Nat)
    (key : List Nat) (wt : WriteType) :
    (decide_drop st level key wt).2.db_writes = st.db_writes := by
  unfold decide_drop
  split
  · rfl
  · cases wt <;> first
      | rfl
      | (dsimp only; split <;> rfl)

@[simp]
theorem enqueued_decide_drop_snd (st : FilterState) (level : Nat)
    (key : List Nat) (wt : WriteType) :
    enqueued (decide_drop st level key wt).2 = enqueued st := by
  unfold enqueued
  rw [decide_drop_snd_write_batch, decide_drop_snd_db_writes]

theorem enqueued_congr (a b : FilterState) (h1 : a.write_batch = b.write_batch)
    (h2 : a.db_writes = b.db_writes) : enqueued a = enqueued b := by
  unfold enqueued
  rw [h1, h2]

@[simp]
theorem apply_drop_false (st : FilterState) (pfx : List Nat) (w : WriteRef) :
    apply_drop st pfx w false = st := by
  unfold apply_drop
  simp

theorem apply_drop_true_no_short (st : FilterState) (pfx : List Nat) (w : WriteRef)
    (h : w.short_value = none) :
    apply_drop st pfx w true =
      { delete_default_key st (append_ts pfx w.start_ts) with
        deleted := (delete_default_key st (append_ts pfx w.start_ts)).deleted + 1 } := by
  unfold apply_drop
  simp [h]

theorem apply_drop_true_short (st : FilterState) (pfx : List Nat) (w : WriteRef)
    (sv : List Nat) (h : w.short_value = some sv) :
    apply_drop st pfx w true = { st with deleted := st.deleted + 1 } := by
  unfold apply_drop
  simp [h]

theorem enqueued_apply_drop_none (st : FilterState) (pfx : List Nat) (w : WriteRef)
    (h : w.short_value = none) :
    enqueued (apply_drop st pfx w true) =
      enqueued st ++ [(CF.default, append_ts pfx w.start_ts)] := by
  rw [apply_drop_true_no_short st pfx w h]
  exact (enqueued_congr _ (delete_default_key st (append_ts pfx w.start_ts)) rfl
    rfl).trans (enqueued_delete_default_key st (append_ts pfx w.start_ts))

theorem enqueued_apply_drop_short (st : FilterState) (pfx : List Nat) (w : WriteRef)
    (sv : List Nat) (h : w.short_value = some sv) :
    enqueued (apply_drop st pfx w true) = enqueued st := by
  rw [apply_drop_true_short st pfx w sv h]
  exact enqueued_congr _ st rfl rfl

@[simp]
theorem apply_drop_remove_older (st : FilterState) (pfx : List Nat) (w : WriteRef)
    (b : Bool) : (apply_drop st pfx w b).remove_older = st.remove_older := by
  unfold apply_drop
  split
  · split <;> simp
  · rfl

/-! Shape lemmas for `filter`: one per control path of the source. -/

theorem filter_split_err (st : FilterState) (level : Nat) (key value : List Nat)
    (hk : split_on_ts key = none) :
    filter st level key value = some (false, st) := by
  unfold filter
  rw [hk]

theorem filter_above_sp (st : FilterState) (level : Nat) (key value : List Nat)
    (pfx : List Nat) (cts : Nat)
    (hk : split_on_ts key = some (pfx, cts)) (h : st.safe_point < cts) :
    filter st level key value = some (false, stepped st level pfx) := by
  unfold filter
  rw [hk]
  dsimp only
  rw [if_pos]
  rwa [stepped_safe_point]

theorem filter_below_sp (st : FilterState) (level : Nat) (key value : List Nat)
    (pfx : List Nat) (cts : Nat) (w : WriteRef)
    (hk : split_on_ts key = some (pfx, cts)) (h : cts ≤ st.safe_point)
    (hv : parseWriteRef value = some w) :
    filter st level key value =
      some ((decide_drop (stepped st level pfx) level key w.write_type).1,
        apply_drop (decide_drop (stepped st level pfx) level key w.write_type).2
          pfx w (decide_drop (stepped st level pfx) level key w.write_type).1) := by
  unfold filter
  rw [hk]
  dsimp only
  rw [if_neg, hv]
  rw [stepped_safe_point]
  omega

theorem filter_value_parse_panic (st : FilterState) (level : Nat)
    (key value : List Nat) (pfx : List Nat) (cts : Nat)
    (hk : split_on_ts key = some (pfx, cts)) (h : cts ≤ st.safe_point)
    (hv : parseWriteRef value = none) :
    filter st level key value = none := by
  unfold filter
  rw [hk]
  dsimp only
  rw [if_neg, hv]
  rw [stepped_safe_point]
  omega

theorem stepped_remove_older_false (st : FilterState) (level : Nat)
    (pfx : List Nat) (hro : st.key_pfx ≠ pfx ∨ st.remove_older = false) :
    (stepped st level pfx).remove_older = false := by
  rw [stepped_remove_older]
  by_cases hp : st.key_pfx = pfx
  · rw [if_pos hp]
    rcases hro with h | h
    · exact absurd hp h
    · exact h
  · rw [if_neg hp]

/-! Concrete inputs used by witnesses and counterexamples. -/

def tKeyB : List Nat := [107, 101, 121]

def tK40 : List Nat := append_ts tKeyB 40

def tK50 : List Nat := append_ts tKeyB 50

def tVLock40 : List Nat := encodeWriteRef ⟨WriteType.Lock, 40, some [9]⟩

def tVPutNI : List Nat := encodeWriteRef ⟨WriteType.Put, 30, none⟩

def tVDel35 : List Nat := encodeWriteRef ⟨WriteType.Delete, 35, some [1]⟩

/-! The claims. -/

/-- C6: for every GC configuration and cluster version,
`is_compaction_filter_allowd` returns true if and only if
`enable_compaction_filter` is set and either
`compaction_filter_skip_version_check` is set or the known cluster version
is at least `COMPACTION_FILTER_MINIMAL_VERSION` (5.0.0). -/
theorem claim_C6_allowed_iff (cfg : GcConfig) (cv : Option Version) :
    is_compaction_filter_allowd cfg cv = true ↔
      (cfg.enable_compaction_filter = true ∧
        (cfg.compaction_filter_skip_version_check = true ∨
          ∃ v, cv = some v ∧
            versionGe v COMPACTION_FILTER_MINIMAL_VERSION = true)) := by
  cases cv <;> simp [is_compaction_filter_allowd]

/-- C7: after any enqueue (`delete_default_key` or `delete_write_key`) the
pending write batch holds at most `DEFAULT_DELETE_BATCH_COUNT` (128)
entries, and whenever the enqueue pushes the count past the threshold the
batch (including the new entry) is written to the engine with
`sync = false` and cleared. -/
theorem claim_C7_batch_bound (st : FilterState) (k : List Nat) :
    ((delete_default_key st k).write_batch.length ≤ DEFAULT_DELETE_BATCH_COUNT ∧
      (delete_write_key st k).write_batch.length ≤ DEFAULT_DELETE_BATCH_COUNT) ∧
    (DEFAULT_DELETE_BATCH_COUNT < st.write_batch.length + 1 →
      (delete_default_key st k).write_batch = [] ∧
      (delete_default_key st k).db_writes =
        st.db_writes ++ [(st.write_batch ++ [(CF.default, k)], false)] ∧
      (delete_write_key st k).write_batch = [] ∧
      (delete_write_key st k).db_writes =
        st.db_writes ++ [(st.write_batch ++ [(CF.write, k)], false)]) := by
  unfold delete_default_key delete_write_key flush_pending_writes_if_need
  constructor
  · constructor <;> · split <;> simp_all
  · intro h
    rw [if_pos, if_pos] <;> simp_all

/-- Concrete batcher state holding exactly `DEFAULT_DELETE_BATCH_COUNT`
pending entries, so that the next enqueue triggers a flush. -/
def c7StBig : FilterState :=
  { mkFilter true 1 with write_batch := List.replicate 128 (CF.write, [0]) }

/-- Witness for C7 at a batch already holding 128 entries. -/
theorem claim_C7_witness :
    ((delete_default_key c7StBig [5]).write_batch.length ≤ DEFAULT_DELETE_BATCH_COUNT ∧
      (delete_write_key c7StBig [5]).write_batch.length ≤ DEFAULT_DELETE_BATCH_COUNT) ∧
    (DEFAULT_DELETE_BATCH_COUNT < c7StBig.write_batch.length + 1 →
      (delete_default_key c7StBig [5]).write_batch = [] ∧
      (delete_default_key c7StBig [5]).db_writes =
        c7StBig.db_writes ++ [(c7StBig.write_batch ++ [(CF.default, [5])], false)] ∧
      (delete_write_key c7StBig [5]).write_batch = [] ∧
      (delete_write_key c7StBig [5]).db_writes =
        c7StBig.db_writes ++ [(c7StBig.write_batch ++ [(CF.write, [5])], false)]) :=
  claim_C7_batch_bound c7StBig [5]

/-- C10: the `new_value` and `value_changed` out-parameters of the raw
filter callback are never touched: whenever `filter_full` returns, the
two output slots equal the values they were passed in with. -/
theorem claim_C10_value_untouched (st : FilterState) (level : Nat)
    (key value new_value : List Nat) (value_changed : Bool)
    (b : Bool) (st2 : FilterState) (nv2 : List Nat) (vc2 : Bool)
    (h : filter_full st level key value new_value value_changed =
      some (b, st2, nv2, vc2)) :
    nv2 = new_value ∧ vc2 = value_changed := by
  unfold filter_full at h
  cases hf : filter st level key value with
  | none => rw [hf] at h; simp at h
  | some p =>
    rw [hf] at h
    simp only [Option.map_some', Option.some.injEq, Prod.mk.injEq] at h
    exact ⟨h.2.2.1.symm, h.2.2.2.symm⟩

/-- Result of a concrete `filter_full` call, used by the C10 witness. -/
def c10Res : Bool × FilterState × List Nat × Bool :=
  (filter_full (mkFilter true 50) 0 tK40 tVLock40 [7] false).getD
    (false, mkFilter true 50, [], true)

/-- Witness for C10 at a concrete dropped Lock record. -/
theorem claim_C10_witness : c10Res.2.2.1 = [7] ∧ c10Res.2.2.2 = false :=
  claim_C10_value_untouched (mkFilter true 50) 0 tK40 tVLock40 [7] false
    c10Res.1 c10Res.2.1 c10Res.2.2.1 c10Res.2.2.2 (by decide)

/-- C8: a Lock or Rollback record reached while `remove_older` is still
false for its user prefix is dropped (`filter` returns true) and leaves
`remove_older` false, so the next Put/Delete of the prefix is still the
deciding version. -/
theorem claim_C8_lock_rollback_keep_state (st : FilterState) (level : Nat)
    (key value : List Nat) (pfx : List Nat) (cts : Nat) (w : WriteRef)
    (hk : split_on_ts key = some (pfx, cts))
    (hv : parseWriteRef value = some w)
    (hw : w.write_type = WriteType.Lock ∨ w.write_type = WriteType.Rollback)
    (hts : cts ≤ st.safe_point)
    (hro : st.key_pfx ≠ pfx ∨ st.remove_older = false) :
    ∃ st2, filter st level key value = some (true, st2) ∧
      st2.remove_older = false := by
  have hro2 := stepped_remove_older_false st level pfx hro
  rw [filter_below_sp st level key value pfx cts w hk hts hv]
  rcases hw with h | h <;> rw [h]
  · rw [decide_drop_lock _ _ _ hro2]
    exact ⟨_, rfl, by simp [hro2]⟩
  · rw [decide_drop_rollback _ _ _ hro2]
    exact ⟨_, rfl, by simp [hro2]⟩

/-- Witness for C8: a fresh bottommost filter with safe point 50 drops a
Lock committed at 40 and keeps `remove_older` false. -/
theorem claim_C8_witness :
    ∃ st2, filter (mkFilter true 50) 0 tK40 tVLock40 = some (true, st2) ∧
      st2.remove_older = false :=
  claim_C8_lock_rollback_keep_state (mkFilter true 50) 0 tK40 tVLock40 tKeyB 40
    ⟨WriteType.Lock, 40, some [9]⟩ (by decide) (by decide) (Or.inl rfl)
    (by decide) (Or.inl (by decide))

/-- C4: a record whose commit timestamp exceeds the safe point is kept
(`filter` returns false) with the write batch and the engine writes
untouched; at the boundary, a record with commit timestamp equal to the
safe point reaches the drop decision (the guard is `≤`, not `<`): with
`remove_older` already set and a parseable value it is dropped. -/
theorem claim_C4_safe_point_boundary (st : FilterState) (level : Nat)
    (key value : List Nat) (pfx : List Nat) (cts : Nat)
    (hk : split_on_ts key = some (pfx, cts)) :
    (st.safe_point < cts →
      filter st level key value = some (false, stepped st level pfx) ∧
      (stepped st level pfx).write_batch = st.write_batch ∧
      (stepped st level pfx).db_writes = st.db_writes) ∧
    (cts = st.safe_point → st.key_pfx = pfx → st.remove_older = true →
      parseWriteRef value ≠ none →
      (filter st level key value).map Prod.fst = some true) := by
  constructor
  · intro h
    exact ⟨filter_above_sp st level key value pfx cts hk h,
      stepped_write_batch st level pfx, stepped_db_writes st level pfx⟩
  · intro heq hpfx hro hpe
    cases hv : parseWriteRef value with
    | none => exact absurd hv hpe
    | some w =>
      rw [filter_below_sp st level key value pfx cts w hk (le_of_eq heq) hv]
      have h2 : (stepped st level pfx).remove_older = true := by
        rw [stepped_remove_older, if_pos hpfx]
        exact hro
      rw [decide_drop_of_remove_older _ _ _ _ h2]
      rfl

/-- Filter state with the test prefix current and `remove_older` set, used
by the C4 witness: its safe point 50 equals the commit ts of `tK50`. -/
def c4St : FilterState :=
  { mkFilter true 50 with key_pfx := tKeyB, remove_older := true }

/-- Witness for C4 at the boundary `commit_ts = safe_point = 50`: the
record reaches the drop decision and is dropped. -/
theorem claim_C4_witness :
    (c4St.safe_point < 50 →
      filter c4St 6 tK50 tVLock40 = some (false, stepped c4St 6 tKeyB) ∧
      (stepped c4St 6 tKeyB).write_batch = c4St.write_batch ∧
      (stepped c4St 6 tKeyB).db_writes = c4St.db_writes) ∧
    (50 = c4St.safe_point → c4St.key_pfx = tKeyB → c4St.remove_older = true →
      parseWriteRef tVLock40 ≠ none →
      (filter c4St 6 tK50 tVLock40).map Prod.fst = some true) :=
  claim_C4_safe_point_boundary c4St 6 tK50 tVLock40 tKeyB 50 (by decide)

/-- C5: a record dropped by `filter` whose parsed value has no short value
enqueues exactly one companion default-column delete, keyed by the user
prefix with `start_ts` appended; a dropped record with an inline short
value enqueues nothing. -/
theorem claim_C5_companion_default_delete (st : FilterState) (level : Nat)
    (key value : List Nat) (pfx : List Nat) (cts : Nat) (w : WriteRef)
    (st2 : FilterState)
    (hk : split_on_ts key = some (pfx, cts))
    (hv : parseWriteRef value = some w)
    (hf : filter st level key value = some (true, st2)) :
    (w.short_value = none →
      enqueued st2 = enqueued st ++ [(CF.default, append_ts pfx w.start_ts)]) ∧
    (w.short_value ≠ none → enqueued st2 = enqueued st) := by
  by_cases h : st.safe_point < cts
  · rw [filter_above_sp st level key value pfx cts hk h] at hf
    simp at hf
  · push_neg at h
    rw [filter_below_sp st level key value pfx cts w hk h hv] at hf
    simp only [Option.some.injEq, Prod.mk.injEq] at hf
    obtain ⟨h1, h2⟩ := hf
    constructor
    · intro hs
      rw [← h2, h1, enqueued_apply_drop_none _ _ _ hs,
        enqueued_decide_drop_snd, enqueued_stepped]
    · intro hs
      cases hsv : w.short_value with
      | none => exact absurd hsv hs
      | some sv =>
        rw [← h2, h1, enqueued_apply_drop_short _ _ _ sv hsv,
          enqueued_decide_drop_snd, enqueued_stepped]

/-- Filter state used by the C5 witness: prefix current, `remove_older`
set, so the next record is dropped. -/
def c5St : FilterState :=
  { mkFilter true 50 with key_pfx := tKeyB, remove_older := true }

/-- Resulting state of the C5 witness call. -/
def c5St2 : FilterState :=
  ((filter c5St 0 tK40 tVPutNI).getD (false, c5St)).2

/-- Witness for C5: dropping a non-inline Put enqueues exactly the one
companion default delete for `tKeyB || 30`. -/
theorem claim_C5_witness :
    ((⟨WriteType.Put, 30, none⟩ : WriteRef).short_value = none →
      enqueued c5St2 = enqueued c5St ++ [(CF.default, append_ts tKeyB 30)]) ∧
    ((⟨WriteType.Put, 30, none⟩ : WriteRef).short_value ≠ none →
      enqueued c5St2 = enqueued c5St) :=
  claim_C5_companion_default_delete c5St 0 tK40 tVPutNI tKeyB 40
    ⟨WriteType.Put, 30, none⟩ c5St2 (by decide) (by decide) (by decide)

/-- Keys and values of the two-record run refuting C1: a Put at commit 90
followed by an older Delete at commit 80, under safe point 100, at a
non-bottommost level. -/
def c1K90 : List Nat := append_ts tKeyB 90

/-- Value of the newer Put of the C1 run. -/
def c1V90 : List Nat := encodeWriteRef ⟨WriteType.Put, 85, some [1]⟩

/-- Key of the older Delete of the C1 run. -/
def c1K80 : List Nat := append_ts tKeyB 80

/-- Value of the older Delete of the C1 run. -/
def c1V80 : List Nat := encodeWriteRef ⟨WriteType.Delete, 75, some [1]⟩

/-- Counterexample to C1: at a non-bottommost level, a Delete-typed record
that is shadowed by a newer Put (so `remove_older` is already true) is
dropped — `filter` returns true, contrary to the claim that a Delete is
never dropped there regardless of `remove_older`. -/
theorem claim_C1_counterexample :
    (mkFilter false 100).bottommost_level = false ∧
    (parseWriteRef c1V80).map WriteRef.write_type = some WriteType.Delete ∧
    ((filter (mkFilter false 100) 0 c1K90 c1V90).bind
      (fun r => filter r.2 0 c1K80 c1V80)).map Prod.fst = some true := by
  decide

/-- C1 as amended: at a non-bottommost level a Delete-typed record reached
while `remove_older` is still false for its prefix is never dropped —
`filter` returns false and sets `remove_older`; only a Delete already
shadowed by a newer Put/Delete (`remove_older` true) is dropped. -/
theorem claim_C1_amended (st : FilterState) (level : Nat) (key value : List Nat)
    (pfx : List Nat) (cts : Nat) (w : WriteRef)
    (hb : st.bottommost_level = false)
    (hk : split_on_ts key = some (pfx, cts))
    (hv : parseWriteRef value = some w)
    (hw : w.write_type = WriteType.Delete)
    (hts : cts ≤ st.safe_point)
    (hro : st.key_pfx ≠ pfx ∨ st.remove_older = false) :
    ∃ st2, filter st level key value = some (false, st2) ∧
      st2.remove_older = true := by
  have hro2 := stepped_remove_older_false st level pfx hro
  have hb2 : (stepped st level pfx).bottommost_level = false := by
    rw [stepped_bottommost]
    exact hb
  rw [filter_below_sp st level key value pfx cts w hk hts hv, hw,
    decide_drop_delete_nonbottom _ _ _ hro2 hb2]
  exact ⟨_, rfl, by simp⟩

/-- Witness for the amended C1: a fresh non-bottommost filter keeps a
Delete committed at 40 under safe point 100 and sets `remove_older`. -/
theorem claim_C1_witness :
    ∃ st2, filter (mkFilter false 100) 0 tK40 tVDel35 = some (false, st2) ∧
      st2.remove_older = true :=
  claim_C1_amended (mkFilter false 100) 0 tK40 tVDel35 tKeyB 40
    ⟨WriteType.Delete, 35, some [1]⟩ rfl (by decide) (by decide) rfl
    (by decide) (Or.inr rfl)

/-- Fresh bottommost filter with safe point 50, the C2 scenario start. -/
def c2State0 : FilterState := mkFilter true 50

/-- Key `key@110` of the C2 scenario. -/
def c2K110 : List Nat := append_ts tKeyB 110

/-- Value `(Put, 100, inline)` of the C2 scenario. -/
def c2V110 : List Nat := encodeWriteRef ⟨WriteType.Put, 100, some [1]⟩

/-- Key `key@90` of the C2 scenario. -/
def c2K90 : List Nat := append_ts tKeyB 90

/-- Value `(Lock, 85, inline)` of the C2 scenario. -/
def c2V90 : List Nat := encodeWriteRef ⟨WriteType.Lock, 85, some [1]⟩

/-- State after the first C2 record. -/
def c2St1 : FilterState := ((filter c2State0 6 c2K110 c2V110).getD (false, c2State0)).2

/-- State after the second C2 record. -/
def c2St2 : FilterState := ((filter c2St1 6 c2K90 c2V90).getD (false, c2St1)).2

/-- Counterexample to C2: with safe point 50 the second record `key@90`
has commit ts 90 > 50, so it is kept (`filter` returns false) and the
`deleted` counter stays 0 — not dropped with `deleted = 1` as claimed. -/
theorem claim_C2_counterexample :
    filter c2State0 6 c2K110 c2V110 = some (false, c2St1) ∧
    (filter c2St1 6 c2K90 c2V90).map (fun r => (r.1, r.2.deleted)) =
      some (false, 0) := by
  decide

/-- C2 as amended: with safe point 50 both records are above the safe
point, so both are kept, nothing is enqueued, and the per-prefix counters
end at `versions = 2`, `deleted = 0`. -/
theorem claim_C2_amended :
    filter c2State0 6 c2K110 c2V110 = some (false, c2St1) ∧
    filter c2St1 6 c2K90 c2V90 = some (false, c2St2) ∧
    enqueued c2St2 = [] ∧ c2St2.versions = 2 ∧ c2St2.deleted = 0 := by
  decide

/-- Counterexample to C3: on a well-formed key at or below the safe point
whose value fails `WriteRef` parsing, `filter` does not return false — it
panics (the `unwrap()` at source line 250), modelled as `none`. -/
theorem claim_C3_counterexample :
    split_on_ts tK40 = some (tKeyB, 40) ∧ parseWriteRef [] = none ∧
    filter (mkFilter true 50) 0 tK40 [] = none := by
  decide

/-- C3 as amended: a key that fails MVCC parsing makes `filter` return
false with the state (hence the write batch) unchanged; but a value that
fails `WriteRef` parsing is only tolerated while it is never parsed — for
a record at or below the safe point it panics instead of returning. -/
theorem claim_C3_amended (st : FilterState) (level : Nat) (key value : List Nat)
    (pfx : List Nat) (cts : Nat) :
    (split_on_ts key = none → filter st level key value = some (false, st)) ∧
    (split_on_ts key = some (pfx, cts) → cts ≤ st.safe_point →
      parseWriteRef value = none → filter st level key value = none) :=
  ⟨filter_split_err st level key value,
    fun hk hts hv => filter_value_parse_panic st level key value pfx cts hk hts hv⟩

/-- Witness for the amended C3 at the concrete panic input. -/
theorem claim_C3_witness :
    (split_on_ts tK40 = none →
      filter (mkFilter true 50) 0 tK40 [] = some (false, mkFilter true 50)) ∧
    (split_on_ts tK40 = some (tKeyB, 40) → 40 ≤ (mkFilter true 50).safe_point →
      parseWriteRef [] = none → filter (mkFilter true 50) 0 tK40 [] = none) :=
  claim_C3_amended (mkFilter true 50) 0 tK40 [] tKeyB 40

/-- Filter state at destruction time with one recorded tail delete, used
by the C9 counterexample. -/
def c9St : FilterState :=
  { mkFilter true 100 with leveled_tail_deletes := [(6, tK50)] }

/-- Counterexample to C9: when the tail iterator reports an engine read
error on its first entry, the destructor does not abandon the entry and
continue with the next one — the error escapes `dropFilter` (the
`unwrap()`s at source lines 172 and 191 panic). -/
theorem claim_C9_counterexample :
    dropFilter c9St [((6, tK50), [TailObs.fail]), ((5, append_ts [9] 20), [])] =
      Except.error () := by
  rfl

/-- C9 as amended: during tail resolution a key parse failure ends the
scan for the current entry, which is abandoned, and processing continues
with the next entry; an engine read error from the iterator, however, is
not recovered — it panics and propagates out of the destructor. -/
theorem claim_C9_amended (st : FilterState) (e : Nat × List Nat)
    (obs : List TailObs) (rest : List ((Nat × List Nat) × List TailObs))
    (key value : List Nat) :
    (dropFilter st ((e, TailObs.fail :: obs) :: rest) = Except.error ()) ∧
    (split_on_ts key = none →
      runTailDeletes st ((e, TailObs.entry key value :: obs) :: rest) =
        runTailDeletes (switch_key_metrics st) rest) := by
  constructor
  · rfl
  · intro hk
    show (match resolveTail st e.2 (TailObs.entry key value :: obs) with
      | Except.error u => Except.error u
      | Except.ok st1 => runTailDeletes st1 rest) = _
    rw [show resolveTail st e.2 (TailObs.entry key value :: obs) =
        Except.ok (switch_key_metrics st) from by
      unfold resolveTail
      rw [hk]]

/-- Witness for the amended C9: an unparseable one-byte key ends the tail
scan and the loop proceeds, while a leading read error makes the
destructor fail. -/
theorem claim_C9_witness :
    (dropFilter (mkFilter true 5) (((6, tK50), TailObs.fail :: []) :: []) =
      Except.error ()) ∧
    (split_on_ts [3] = none →
      runTailDeletes (mkFilter true 5) (((6, tK50), TailObs.entry [3] [] :: []) :: []) =
        runTailDeletes (switch_key_metrics (mkFilter true 5)) []) :=
  claim_C9_amended (mkFilter true 5) (6, tK50) [] [] [3] []

end GcCompactionFilter
